import Mathlib

/-!
Verification of the risk-scoring agent core (risk_scoring_agent.py).

Shallow embedding conventions:
* Python floats are modelled as exact rationals (ℚ).  All constants in the
  source (0.25, 0.3, 750, 1_000_000, ...) are exact rationals.
* Wall-clock time is abstracted: every operation that reads the clock in the
  source (datetime.now(), time.time()) takes the relevant instant or elapsed
  duration as an explicit ℚ parameter.
* `entity_data` is a dict with optional numeric fields; it is modelled as a
  structure of `Option` fields, `.get(k, default)` becoming `Option.getD`.
* Exceptions are modelled with `Except`.  In the source the only fallible step
  of `assess_risk` is the factor/score computation (e.g. a TypeError on a
  non-numeric field); in the typed model that computation is total, so
  `assess_risk_with` takes the outcome of the factor computation as an
  `Except` parameter and `assess_risk` instantiates it with the successful
  computation.
* Python dicts keyed by strings (the agent registry) are modelled as
  association lists with Python's update semantics (replace in place if the
  key exists, else append); dict iteration order is the list order.
-/

/-- RiskLevel enum from the source. -/
inductive RiskLevel where
  | LOW
  | MEDIUM
  | HIGH
  | CRITICAL
deriving DecidableEq, Repr

/-- Rank of a risk level in the LOW < MEDIUM < HIGH < CRITICAL order,
used to state monotonicity of the classifier. -/
def riskLevelRank : RiskLevel → ℕ
  | RiskLevel.LOW => 0
  | RiskLevel.MEDIUM => 1
  | RiskLevel.HIGH => 2
  | RiskLevel.CRITICAL => 3

/-- AgentStatus enum from the source. -/
inductive AgentStatus where
  | HEALTHY
  | WARNING
  | CRITICAL
  | OFFLINE
deriving DecidableEq, Repr

/-- The optional-field entity input dict accepted by `assess_risk`. -/
structure EntityData where
  entity_id : Option String
  financial_exposure : Option ℚ
  credit_score : Option ℚ
  market_volatility : Option ℚ
  compliance_score : Option ℚ
  operational_incidents : Option ℚ
deriving DecidableEq, Repr

/-- The factor dict returned by `_calculate_risk_factors`; its keys are fixed
in the source, so it is modelled as a structure with one field per key. -/
structure RiskFactors where
  financial_exposure : ℚ
  credit_history : ℚ
  market_volatility : ℚ
  regulatory_compliance : ℚ
  operational_risk : ℚ
deriving DecidableEq, Repr

/-- The fixed weight dict `self.risk_weights`; keys fixed in the source. -/
structure RiskWeights where
  financial_exposure : ℚ
  credit_history : ℚ
  market_volatility : ℚ
  regulatory_compliance : ℚ
  operational_risk : ℚ
deriving DecidableEq, Repr

/-- `self.risk_weights` as set in `RiskScoringAgent.__init__`. -/
def risk_weights : RiskWeights :=
  { financial_exposure := 3/10
    credit_history := 25/100
    market_volatility := 2/10
    regulatory_compliance := 15/100
    operational_risk := 1/10 }

/-- The weighted sum `sum(factors[factor] * weight for factor, weight in
self.risk_weights.items())` computed in `assess_risk`. -/
def computeRiskScore (factors : RiskFactors) (weights : RiskWeights) : ℚ :=
  factors.financial_exposure * weights.financial_exposure
    + factors.credit_history * weights.credit_history
    + factors.market_volatility * weights.market_volatility
    + factors.regulatory_compliance * weights.regulatory_compliance
    + factors.operational_risk * weights.operational_risk

/-- `RiskScoringAgent._calculate_risk_factors`, translated line by line. -/
def calculate_risk_factors (entity_data : EntityData) : RiskFactors :=
  let exposure := entity_data.financial_exposure.getD 0
  let credit_score := entity_data.credit_score.getD 750
  let volatility := entity_data.market_volatility.getD (2/10)
  let compliance_score := entity_data.compliance_score.getD (9/10)
  let operational_incidents := entity_data.operational_incidents.getD 0
  { financial_exposure := min (exposure / 1000000) 1
    credit_history := max 0 ((750 - credit_score) / 300)
    market_volatility := min volatility 1
    regulatory_compliance := 1 - compliance_score
    operational_risk := min (operational_incidents / 10) 1 }

/-- `RiskScoringAgent._determine_risk_level`, translated line by line. -/
def determine_risk_level (risk_score : ℚ) : RiskLevel :=
  if risk_score < 25/100 then RiskLevel.LOW
  else if risk_score < 5/10 then RiskLevel.MEDIUM
  else if risk_score < 75/100 then RiskLevel.HIGH
  else RiskLevel.CRITICAL

/-- `RiskScoringAgent._calculate_confidence`: fraction of the five required
fields present in the input dict. -/
def calculate_confidence (entity_data : EntityData) : ℚ :=
  let present_fields : ℚ :=
    (if entity_data.entity_id.isSome then 1 else 0)
      + (if entity_data.financial_exposure.isSome then 1 else 0)
      + (if entity_data.credit_score.isSome then 1 else 0)
      + (if entity_data.market_volatility.isSome then 1 else 0)
      + (if entity_data.compliance_score.isSome then 1 else 0)
  present_fields / 5

/-- The RiskAssessment dataclass; `timestamp` is the abstracted clock value. -/
structure RiskAssessment where
  entity_id : String
  risk_score : ℚ
  risk_level : RiskLevel
  factors : RiskFactors
  timestamp : ℚ
  confidence : ℚ
deriving DecidableEq, Repr

/-- The AgentHealthMetrics dataclass; instants and durations are ℚ. -/
structure AgentHealthMetrics where
  agent_id : String
  status : AgentStatus
  uptime : ℚ
  response_time : ℚ
  error_rate : ℚ
  throughput : ℚ
  cpu_usage : ℚ
  memory_usage : ℚ
  last_heartbeat : ℚ
  active_assessments : ℤ
deriving DecidableEq, Repr

/-- The mutable state of one RiskScoringAgent (the fields of `self` that the
modelled operations read or write). -/
structure RiskScoringAgent where
  agent_id : String
  is_running : Bool
  health_metrics : AgentHealthMetrics
  assessment_history : List RiskAssessment
  start_time : Option ℚ
deriving DecidableEq, Repr

/-- `RiskScoringAgent.__init__`; `now` is the abstracted `datetime.now()`
used for `last_heartbeat`. -/
def newAgent (agent_id : String) (now : ℚ) : RiskScoringAgent :=
  { agent_id := agent_id
    is_running := false
    health_metrics :=
      { agent_id := agent_id
        status := AgentStatus.OFFLINE
        uptime := 0
        response_time := 0
        error_rate := 0
        throughput := 0
        cpu_usage := 0
        memory_usage := 0
        last_heartbeat := now
        active_assessments := 0 }
    assessment_history := []
    start_time := none }

/-- `RiskScoringAgent._update_performance_metrics`.  `elapsed` is the
abstracted `(datetime.now() - self.start_time).total_seconds()` used by the
throughput update. -/
def update_performance_metrics (st : RiskScoringAgent) (response_time : ℚ)
    (success : Bool) (elapsed : ℚ) : RiskScoringAgent :=
  { st with health_metrics :=
    { st.health_metrics with
      response_time := st.health_metrics.response_time * (9/10)
        + response_time * (1/10)
      error_rate :=
        if success then st.health_metrics.error_rate * (95/100)
        else st.health_metrics.error_rate * (9/10) + 1/10
      throughput := (st.assessment_history.length : ℚ) / max 1 elapsed } }

/-- `RiskScoringAgent.assess_risk` with the outcome of the factor computation
supplied as an `Except` parameter (the source's `_calculate_risk_factors` can
raise, e.g. a TypeError on non-numeric input; the typed model cannot express
such inputs, so the fallible step is abstracted).  `now` abstracts the
`datetime.now()` timestamp, `response_time` the measured `time.time()` delta,
and `elapsed` the seconds since the agent started (used by throughput).
Returns the `try` result together with the post-state after the `finally`
decrement. -/
def assess_risk_with (factorsResult : Except String RiskFactors)
    (st : RiskScoringAgent) (entity_data : EntityData)
    (now response_time elapsed : ℚ) :
    Except String RiskAssessment × RiskScoringAgent :=
  let st1 := { st with health_metrics :=
    { st.health_metrics with
      active_assessments := st.health_metrics.active_assessments + 1 } }
  match factorsResult with
  | Except.error e =>
      let st2 := update_performance_metrics st1 response_time false elapsed
      let st3 := { st2 with health_metrics :=
        { st2.health_metrics with
          active_assessments := st2.health_metrics.active_assessments - 1 } }
      (Except.error e, st3)
  | Except.ok factors =>
      let risk_score := computeRiskScore factors risk_weights
      let risk_level := determine_risk_level risk_score
      let confidence := calculate_confidence entity_data
      let assessment : RiskAssessment :=
        { entity_id := entity_data.entity_id.getD "unknown"
          risk_score := risk_score
          risk_level := risk_level
          factors := factors
          timestamp := now
          confidence := confidence }
      let st2 := { st1 with
        assessment_history := st1.assessment_history ++ [assessment] }
      let st3 := update_performance_metrics st2 response_time true elapsed
      let st4 := { st3 with health_metrics :=
        { st3.health_metrics with
          active_assessments := st3.health_metrics.active_assessments - 1 } }
      (Except.ok assessment, st4)

/-- `assess_risk` on a well-typed entity input, where the factor computation
succeeds and returns `calculate_risk_factors entity_data`. -/
def assess_risk (st : RiskScoringAgent) (entity_data : EntityData)
    (now response_time elapsed : ℚ) :
    Except String RiskAssessment × RiskScoringAgent :=
  assess_risk_with (Except.ok (calculate_risk_factors entity_data))
    st entity_data now response_time elapsed

/-- Python slice `l[s:]` for an arbitrary integer start index: a negative
start counts from the end and clamps at 0, a nonnegative start clamps at the
length. -/
def pyDropFrom (l : List α) (s : ℤ) : List α :=
  if s < 0 then l.drop (max 0 ((l.length : ℤ) + s)).toNat
  else l.drop s.toNat

/-- `RiskScoringAgent.get_assessment_history(limit)`: the source returns
`self.assessment_history[-limit:]`. -/
def get_assessment_history (st : RiskScoringAgent) (limit : ℤ) :
    List RiskAssessment :=
  pyDropFrom st.assessment_history (-limit)

/-- `get_assessment_history()` with the source's default argument
`limit = 100`. -/
def get_assessment_history_default (st : RiskScoringAgent) :
    List RiskAssessment :=
  get_assessment_history st 100

/-- Python dict assignment `d[k] = v` on an association list: replace the
first binding of `k` in place, or append a new binding. -/
def dictInsert (k : String) (v : α) : List (String × α) → List (String × α)
  | [] => [(k, v)]
  | (k', v') :: rest =>
      if k' = k then (k, v) :: rest else (k', v') :: dictInsert k v rest

/-- Python dict lookup `d[k]` (as an Option). -/
def dictLookup (k : String) : List (String × α) → Option α
  | [] => none
  | (k', v') :: rest => if k' = k then some v' else dictLookup k rest

/-- The state of a RiskScoringSystem: the `agents` dict (insertion-ordered)
and the system start instant. -/
structure SystemState where
  agents : List (String × RiskScoringAgent)
  start_time : ℚ
deriving DecidableEq, Repr

/-- `RiskScoringSystem.add_agent`: builds a fresh agent and stores it under
`agent_id` with plain dict assignment; `now` is the `datetime.now()` read by
the fresh agent's `__init__`.  Returns the new agent and the new system
state. -/
def add_agent (sys : SystemState) (agent_id : String) (now : ℚ) :
    RiskScoringAgent × SystemState :=
  let agent := newAgent agent_id now
  (agent, { sys with agents := dictInsert agent_id agent sys.agents })

/-- The dict returned by `RiskScoringSystem.get_system_health` (minus the
uptime field, which only repackages the abstracted clock). -/
structure SystemHealth where
  total_assessments : ℕ
  average_response_time : ℚ
  system_uptime : ℚ
  active_agents : ℕ
  total_agents : ℕ
deriving DecidableEq, Repr

/-- `RiskScoringSystem.get_system_health`, translated line by line; `now`
abstracts `datetime.now()`.  `np.mean` of a nonempty list is its sum divided
by its length. -/
def get_system_health (sys : SystemState) (now : ℚ) : SystemHealth :=
  let vals := sys.agents.map Prod.snd
  let activeVals :=
    vals.filter (fun a => a.health_metrics.status ≠ AgentStatus.OFFLINE)
  let active_agents := activeVals.length
  let avg_response_time :=
    if active_agents > 0 then
      (activeVals.map (fun a => a.health_metrics.response_time)).sum
        / (active_agents : ℚ)
    else 0
  let total_assessments :=
    if active_agents > 0 then
      (vals.map (fun a => a.assessment_history.length)).sum
    else 0
  { total_assessments := total_assessments
    average_response_time := avg_response_time
    system_uptime := now - sys.start_time
    active_agents := active_agents
    total_agents := sys.agents.length }

/-- Factor map written from the specification text, to be compared with the
source's `calculate_risk_factors`: financial_exposure =
min(exposure/1000000, 1.0) with default exposure 0; credit_history =
max(0, (750 - creditScore)/300) with default creditScore 750;
market_volatility = min(volatility, 1.0) with default 0.2;
regulatory_compliance = 1.0 - complianceScore with default 0.9;
operational_risk = min(incidents/10, 1.0) with default 0. -/
def spec_risk_factors (entity_data : EntityData) : RiskFactors :=
  { financial_exposure :=
      min (entity_data.financial_exposure.getD 0 / 1000000) 1
    credit_history :=
      max 0 ((750 - entity_data.credit_score.getD 750) / 300)
    market_volatility := min (entity_data.market_volatility.getD (2/10)) 1
    regulatory_compliance := 1 - entity_data.compliance_score.getD (9/10)
    operational_risk :=
      min (entity_data.operational_incidents.getD 0 / 10) 1 }

/-- The agent's error_rate after a finite sequence of performance-metric
updates starting from a freshly constructed agent (error_rate 0.0), each
update applying `_update_performance_metrics` with the given success flag. -/
def error_rate_after (updates : List Bool) : ℚ :=
  (updates.foldl (fun st s => update_performance_metrics st 0 s 1)
    (newAgent "agent" 0)).health_metrics.error_rate

/-- Helper for the error-rate invariant: one update step keeps error_rate in
[0, 1). -/
theorem error_rate_step_bounds {e : ℚ} (h0 : 0 ≤ e) (h1 : e < 1) (s : Bool) :
    0 ≤ (if s then e * (95/100) else e * (9/10) + 1/10)
      ∧ (if s then e * (95/100) else e * (9/10) + 1/10) < 1 := by
  cases s <;> simp only [Bool.false_eq_true, if_true, if_false] <;>
    constructor <;> nlinarith

/-- Helper: the fold underlying `error_rate_after` preserves the [0, 1)
bounds on error_rate from an arbitrary starting state. -/
theorem error_rate_fold_bounds (updates : List Bool) :
    ∀ st : RiskScoringAgent, 0 ≤ st.health_metrics.error_rate →
      st.health_metrics.error_rate < 1 →
      0 ≤ (updates.foldl (fun st s => update_performance_metrics st 0 s 1)
            st).health_metrics.error_rate
        ∧ (updates.foldl (fun st s => update_performance_metrics st 0 s 1)
            st).health_metrics.error_rate < 1 := by
  induction updates with
  | nil => intro st h0 h1; exact ⟨h0, h1⟩
  | cons s rest ih =>
      intro st h0 h1
      have hstep := error_rate_step_bounds h0 h1 s
      simp only [List.foldl_cons]
      exact ih _ (by simpa [update_performance_metrics] using hstep.1)
        (by simpa [update_performance_metrics] using hstep.2)

/-- A minimal concrete assessment record, used to build concrete agent
states. -/
def dummyAssessment : RiskAssessment :=
  { entity_id := "e"
    risk_score := 0
    risk_level := RiskLevel.LOW
    factors := ⟨0, 0, 0, 0, 0⟩
    timestamp := 0
    confidence := 0 }

/-- A freshly built agent that already holds one assessment in its history
(status still OFFLINE, as set by the constructor). -/
def histAgent : RiskScoringAgent :=
  { newAgent "a" 0 with assessment_history := [dummyAssessment] }

/-- A freshly built agent holding 101 assessments in its history. -/
def longHistAgent : RiskScoringAgent :=
  { newAgent "a" 0 with
    assessment_history := List.replicate 101 dummyAssessment }

/-- Claim C1: the risk-level classification is the total, deterministic,
monotonic step function with bands LOW on score < 0.25, MEDIUM on
0.25 ≤ score < 0.5, HIGH on 0.5 ≤ score < 0.75 and CRITICAL on
score ≥ 0.75, with the stated boundary values. -/
theorem risk_level_classification :
    (∀ s : ℚ,
        (s < 25/100 → determine_risk_level s = RiskLevel.LOW)
        ∧ (25/100 ≤ s → s < 5/10 →
            determine_risk_level s = RiskLevel.MEDIUM)
        ∧ (5/10 ≤ s → s < 75/100 →
            determine_risk_level s = RiskLevel.HIGH)
        ∧ (75/100 ≤ s → determine_risk_level s = RiskLevel.CRITICAL))
    ∧ (∀ s t : ℚ, s ≤ t →
        riskLevelRank (determine_risk_level s)
          ≤ riskLevelRank (determine_risk_level t))
    ∧ determine_risk_level (25/100) = RiskLevel.MEDIUM
    ∧ determine_risk_level (4999/10000) = RiskLevel.MEDIUM
    ∧ determine_risk_level (5/10) = RiskLevel.HIGH
    ∧ determine_risk_level (75/100) = RiskLevel.CRITICAL
    ∧ determine_risk_level (2499/10000) = RiskLevel.LOW := by
  refine ⟨fun s => ⟨?_, ?_, ?_, ?_⟩, ?_, by norm_num [determine_risk_level],
    by norm_num [determine_risk_level], by norm_num [determine_risk_level],
    by norm_num [determine_risk_level], by norm_num [determine_risk_level]⟩
  · intro h
    unfold determine_risk_level
    split_ifs <;> first | rfl | linarith
  · intro h1 h2
    unfold determine_risk_level
    split_ifs <;> first | rfl | linarith
  · intro h1 h2
    unfold determine_risk_level
    split_ifs <;> first | rfl | linarith
  · intro h
    unfold determine_risk_level
    split_ifs <;> first | rfl | linarith
  · intro s t hst
    unfold determine_risk_level
    split_ifs <;> first | decide | (exfalso; linarith)

/-- Witness for C1: the theorem applied at concrete scores, discharging the
band and monotonicity hypotheses. -/
theorem risk_level_classification_witness :
    ((1/10 : ℚ) < 25/100 ∧ determine_risk_level (1/10) = RiskLevel.LOW)
    ∧ ((1/10 : ℚ) ≤ 6/10
        ∧ riskLevelRank (determine_risk_level (1/10))
            ≤ riskLevelRank (determine_risk_level (6/10))) :=
  ⟨⟨by norm_num, (risk_level_classification.1 (1/10)).1 (by norm_num)⟩,
   ⟨by norm_num,
    risk_level_classification.2.1 (1/10) (6/10) (by norm_num)⟩⟩

/-- Claim C2: the factor map computed by the code agrees with the spec's
formulas and defaults on every input, and the documented quirks hold: a
credit score below 450 can push credit_history above 1, a compliance score
above 1 makes regulatory_compliance negative, and the weighted risk score
can leave [0, 1] in both directions. -/
theorem risk_factors_match_spec :
    (∀ e : EntityData, calculate_risk_factors e = spec_risk_factors e)
    ∧ (∃ e : EntityData, e.credit_score = some 300 ∧ (300 : ℚ) < 450
        ∧ 1 < (calculate_risk_factors e).credit_history)
    ∧ (∃ e : EntityData, e.compliance_score = some (12/10)
        ∧ (1 : ℚ) < 12/10
        ∧ (calculate_risk_factors e).regulatory_compliance < 0)
    ∧ (∃ e : EntityData,
        1 < computeRiskScore (calculate_risk_factors e) risk_weights)
    ∧ (∃ e : EntityData,
        computeRiskScore (calculate_risk_factors e) risk_weights < 0) := by
  refine ⟨fun e => rfl, ?_, ?_, ?_, ?_⟩
  · exact ⟨⟨none, none, some 300, none, none, none⟩, rfl, by norm_num,
      by norm_num [calculate_risk_factors, max_def, min_def]⟩
  · exact ⟨⟨none, none, none, none, some (12/10), none⟩, rfl, by norm_num,
      by norm_num [calculate_risk_factors, max_def, min_def]⟩
  · exact ⟨⟨none, some 2000000, some 0, some 1, some 0, some 10⟩,
      by norm_num [calculate_risk_factors, computeRiskScore, risk_weights,
        max_def, min_def]⟩
  · exact ⟨⟨none, none, none, none, some 10, none⟩,
      by norm_num [calculate_risk_factors, computeRiskScore, risk_weights,
        max_def, min_def]⟩

/-- Helper: the Python slice `l[-k:]` for a positive integer `k` is the
suffix obtained by dropping the first `length - k` elements. -/
theorem pyDropFrom_neg_eq (l : List α) (k : ℤ) (hk : 0 < k) :
    pyDropFrom l (-k) = l.drop (l.length - k.toNat) := by
  unfold pyDropFrom
  rw [if_pos (by omega : -k < 0)]
  congr 1
  rcases le_total ((l.length : ℤ) + -k) 0 with h | h
  · rw [max_eq_left h]; omega
  · rw [max_eq_right h]; omega

/-- Claim C3: the code registers a duplicate agent id by plain dict
assignment, silently replacing the existing agent (no duplicate-agent error
is raised): after re-adding id "a", the registry holds a fresh agent with an
empty history where an agent with one recorded assessment used to be. -/
theorem add_agent_silent_overwrite :
    dictLookup "a" (SystemState.mk [("a", histAgent)] 0).agents
        = some histAgent
    ∧ dictLookup "a"
        (add_agent (SystemState.mk [("a", histAgent)] 0) "a" 0).2.agents
        = some (newAgent "a" 0)
    ∧ (newAgent "a" 0).assessment_history = []
    ∧ histAgent.assessment_history = [dummyAssessment] :=
  ⟨rfl, rfl, rfl, rfl⟩

/-- Claim C4: when the factor computation fails, `assess_risk` returns that
very error to the caller, the performance metrics are still updated with
success = false (error_rate takes the failure update, response_time is still
smoothed), nothing is appended to the history, and the finally-block
decrement cancels the entry increment of active_assessments. -/
theorem assess_risk_error_handling :
    ∀ (st : RiskScoringAgent) (entity_data : EntityData) (msg : String)
      (now response_time elapsed : ℚ),
      (assess_risk_with (Except.error msg) st entity_data now response_time
          elapsed).1 = Except.error msg
      ∧ (assess_risk_with (Except.error msg) st entity_data now response_time
          elapsed).2.assessment_history = st.assessment_history
      ∧ (assess_risk_with (Except.error msg) st entity_data now response_time
          elapsed).2.health_metrics.active_assessments
        = st.health_metrics.active_assessments
      ∧ (assess_risk_with (Except.error msg) st entity_data now response_time
          elapsed).2.health_metrics.error_rate
        = st.health_metrics.error_rate * (9/10) + 1/10
      ∧ (assess_risk_with (Except.error msg) st entity_data now response_time
          elapsed).2.health_metrics.response_time
        = st.health_metrics.response_time * (9/10)
          + response_time * (1/10) := by
  intro st entity_data msg now response_time elapsed
  refine ⟨rfl, rfl, ?_, ?_, ?_⟩ <;>
    simp [assess_risk_with, update_performance_metrics]

/-- Claim C5 (amended): for a positive limit `k` the call returns the last
min(n, k) assessments in insertion order, and the source's default limit is
100, so the no-argument call returns the last min(n, 100) assessments, not
all of them. -/
theorem get_assessment_history_spec :
    (∀ (st : RiskScoringAgent) (k : ℕ), 0 < k →
        get_assessment_history st (k : ℤ)
            = st.assessment_history.drop (st.assessment_history.length - k)
          ∧ (get_assessment_history st (k : ℤ)).length
            = min st.assessment_history.length k)
    ∧ ∀ st : RiskScoringAgent,
        get_assessment_history_default st
          = st.assessment_history.drop
              (st.assessment_history.length - 100) := by
  have key : ∀ (st : RiskScoringAgent) (k : ℕ), 0 < k →
      get_assessment_history st (k : ℤ)
        = st.assessment_history.drop (st.assessment_history.length - k) := by
    intro st k hk
    rw [get_assessment_history, pyDropFrom_neg_eq _ _ (by omega : 0 < (k:ℤ)),
      Int.toNat_natCast]
  constructor
  · intro st k hk
    refine ⟨key st k hk, ?_⟩
    rw [key st k hk, List.length_drop]
    omega
  · intro st
    have h := key st 100 (by norm_num)
    exact_mod_cast h

/-- Witness for C5: the amended theorem applied to a one-assessment agent
with limit 1. -/
theorem get_assessment_history_spec_witness :
    0 < 1
    ∧ (get_assessment_history histAgent (1 : ℤ)
          = histAgent.assessment_history.drop
              (histAgent.assessment_history.length - 1)
        ∧ (get_assessment_history histAgent (1 : ℤ)).length
          = min histAgent.assessment_history.length 1) :=
  ⟨by norm_num, get_assessment_history_spec.1 histAgent 1 (by norm_num)⟩

/-- Counterexample for C5 as stated: on a 101-assessment history the
no-argument call (default limit 100) drops the oldest entry instead of
returning all 101. -/
theorem default_limit_counterexample :
    longHistAgent.assessment_history.length = 101
    ∧ (get_assessment_history_default longHistAgent).length = 100
    ∧ get_assessment_history_default longHistAgent
        ≠ longHistAgent.assessment_history := by
  have h1 : longHistAgent.assessment_history.length = 101 := by
    simp [longHistAgent]
  have h2 : (get_assessment_history_default longHistAgent).length = 100 := by
    rw [get_assessment_history_default, get_assessment_history,
      pyDropFrom_neg_eq _ _ (by norm_num : (0:ℤ) < 100), List.length_drop,
      h1]
    simp
  refine ⟨h1, h2, fun h => ?_⟩
  have h3 := congrArg List.length h
  rw [h2, h1] at h3
  exact absurd h3 (by norm_num)

/-- Claim C9: with limit = 0 the Python slice `history[-0:]` is `history[0:]`
and the whole history is returned. -/
theorem zero_limit_returns_all :
    ∀ st : RiskScoringAgent, st.assessment_history ≠ [] →
      get_assessment_history st 0 = st.assessment_history := by
  intro st _
  rw [get_assessment_history, pyDropFrom]
  norm_num

/-- Witness for C9: the theorem applied to a one-assessment agent. -/
theorem zero_limit_returns_all_witness :
    histAgent.assessment_history ≠ []
    ∧ get_assessment_history histAgent 0 = histAgent.assessment_history := by
  have hne : histAgent.assessment_history ≠ [] := by
    simp [histAgent, newAgent]
  exact ⟨hne, zero_limit_returns_all histAgent hne⟩

/-- Number of registered agents whose status is not OFFLINE, written from
the spec as a count over the registry. -/
def countActiveAgents (sys : SystemState) : ℕ :=
  (sys.agents.map Prod.snd).countP
    (fun a => decide (a.health_metrics.status ≠ AgentStatus.OFFLINE))

/-- Sum of assessment-history lengths over all registered agents, OFFLINE
agents included, written from the spec. -/
def totalHistoryLength (sys : SystemState) : ℕ :=
  (sys.agents.map (fun p => p.2.assessment_history.length)).sum

/-- Response times of the non-OFFLINE agents, used to state what the mean
over active agents is. -/
def activeResponseTimes (sys : SystemState) : List ℚ :=
  ((sys.agents.map Prod.snd).filter
      (fun a => decide (a.health_metrics.status ≠ AgentStatus.OFFLINE))).map
    (fun a => a.health_metrics.response_time)

/-- Claim C6 (amended): active_agents counts the non-OFFLINE agents and
average_response_time is their mean (0 when none is active); when at least
one agent is active, total_assessments sums history lengths over all
registered agents, OFFLINE ones included, but when no agent is active the
code reports total_assessments = 0 regardless of the histories. -/
theorem system_health_reporting :
    ∀ (sys : SystemState) (now : ℚ),
      (get_system_health sys now).active_agents = countActiveAgents sys
      ∧ (0 < countActiveAgents sys →
          (get_system_health sys now).average_response_time
              = (activeResponseTimes sys).sum / (countActiveAgents sys : ℚ)
            ∧ (get_system_health sys now).total_assessments
              = totalHistoryLength sys)
      ∧ (countActiveAgents sys = 0 →
          (get_system_health sys now).average_response_time = 0
            ∧ (get_system_health sys now).total_assessments = 0) := by
  intro sys now
  have hcount : countActiveAgents sys
      = ((sys.agents.map Prod.snd).filter
          (fun a =>
            decide (a.health_metrics.status ≠ AgentStatus.OFFLINE))).length :=
    List.countP_eq_length_filter _ _
  have htot : totalHistoryLength sys
      = ((sys.agents.map Prod.snd).map
          (fun a => a.assessment_history.length)).sum := by
    rw [totalHistoryLength, List.map_map]
    rfl
  refine ⟨?_, ?_, ?_⟩
  · simp only [get_system_health]
    rw [hcount]
  · intro hpos
    rw [hcount] at hpos
    constructor
    · simp only [get_system_health]
      rw [if_pos hpos, activeResponseTimes, hcount]
    · simp only [get_system_health]
      rw [if_pos hpos, htot]
  · intro hzero
    rw [hcount] at hzero
    constructor
    · simp only [get_system_health, hzero]
      norm_num
    · simp only [get_system_health, hzero]
      norm_num

/-- A one-agent system whose only agent is OFFLINE but already holds one
assessment in its history. -/
def offSys : SystemState := SystemState.mk [("a", histAgent)] 0

/-- Witness for C6: the amended theorem applied to a concrete system with no
active agent, discharging the zero-active hypothesis. -/
theorem system_health_reporting_witness :
    countActiveAgents offSys = 0
    ∧ (get_system_health offSys 0).average_response_time = 0
    ∧ (get_system_health offSys 0).total_assessments = 0 := by
  have h0 : countActiveAgents offSys = 0 := by
    simp [countActiveAgents, offSys, histAgent, newAgent]
  have h := (system_health_reporting offSys 0).2.2 h0
  exact ⟨h0, h.1, h.2⟩

/-- Counterexample for C6 as stated: with a single OFFLINE agent holding one
assessment, the code reports total_assessments = 0 although the sum of
history lengths over all registered agents is 1. -/
theorem system_health_offline_counterexample :
    (get_system_health offSys 0).total_assessments = 0
    ∧ totalHistoryLength offSys = 1 :=
  ⟨rfl, rfl⟩

/-- Claim C7: the five weights sum to exactly 1, and whenever all five
factors lie in [0, 1] the weighted score is a convex combination, hence lies
in [0, 1]. -/
theorem weights_sum_convex :
    (risk_weights.financial_exposure + risk_weights.credit_history
      + risk_weights.market_volatility + risk_weights.regulatory_compliance
      + risk_weights.operational_risk = 1)
    ∧ ∀ f : RiskFactors,
        0 ≤ f.financial_exposure → f.financial_exposure ≤ 1 →
        0 ≤ f.credit_history → f.credit_history ≤ 1 →
        0 ≤ f.market_volatility → f.market_volatility ≤ 1 →
        0 ≤ f.regulatory_compliance → f.regulatory_compliance ≤ 1 →
        0 ≤ f.operational_risk → f.operational_risk ≤ 1 →
        0 ≤ computeRiskScore f risk_weights
          ∧ computeRiskScore f risk_weights ≤ 1 := by
  constructor
  · norm_num [risk_weights]
  · intro f h1 h2 h3 h4 h5 h6 h7 h8 h9 h10
    simp only [computeRiskScore, risk_weights]
    constructor <;> linarith

/-- Witness for C7: the convexity part applied to the factor map with every
factor 1/2, discharging the ten bound hypotheses. -/
theorem weights_sum_convex_witness :
    ((0 : ℚ) ≤ 1/2 ∧ (1/2 : ℚ) ≤ 1)
    ∧ 0 ≤ computeRiskScore ⟨1/2, 1/2, 1/2, 1/2, 1/2⟩ risk_weights
    ∧ computeRiskScore ⟨1/2, 1/2, 1/2, 1/2, 1/2⟩ risk_weights ≤ 1 := by
  have h := weights_sum_convex.2 ⟨1/2, 1/2, 1/2, 1/2, 1/2⟩
    (by norm_num) (by norm_num) (by norm_num) (by norm_num) (by norm_num)
    (by norm_num) (by norm_num) (by norm_num) (by norm_num) (by norm_num)
  exact ⟨⟨by norm_num, by norm_num⟩, h.1, h.2⟩

/-- The end-to-end scenario input from the spec. -/
def corpEntity : EntityData :=
  { entity_id := some "CORP_001"
    financial_exposure := some 2500000
    credit_score := some 720
    market_volatility := some (15/100)
    compliance_score := some (95/100)
    operational_incidents := some 1 }

/-- Claim C8: on the CORP_001 input, `assess_risk` returns factors
{financial_exposure 1, credit_history 0.1, market_volatility 0.15,
regulatory_compliance 0.05, operational_risk 0.1}, risk score
0.3725 = 149/400, level MEDIUM and confidence 1. -/
theorem corp_scenario :
    (assess_risk (newAgent "a" 0) corpEntity 0 0 1).1
      = Except.ok
          { entity_id := "CORP_001"
            risk_score := 149/400
            risk_level := RiskLevel.MEDIUM
            factors :=
              { financial_exposure := 1
                credit_history := 1/10
                market_volatility := 15/100
                regulatory_compliance := 5/100
                operational_risk := 1/10 }
            timestamp := 0
            confidence := 1 } := by
  have hf : calculate_risk_factors corpEntity
      = ⟨1, 1/10, 15/100, 5/100, 1/10⟩ := by
    rw [calculate_risk_factors]
    simp only [corpEntity, Option.getD_some, RiskFactors.mk.injEq]
    norm_num [min_def, max_def]
  have hscore :
      computeRiskScore (⟨1, 1/10, 15/100, 5/100, 1/10⟩ : RiskFactors)
        risk_weights = 149/400 := by
    norm_num [computeRiskScore, risk_weights]
  have hlevel : determine_risk_level (149/400) = RiskLevel.MEDIUM := by
    norm_num [determine_risk_level]
  have hconf : calculate_confidence corpEntity = 1 := by
    norm_num [calculate_confidence, corpEntity]
  have hred : (assess_risk (newAgent "a" 0) corpEntity 0 0 1).1
      = Except.ok
          ({ entity_id := corpEntity.entity_id.getD "unknown"
             risk_score :=
               computeRiskScore (calculate_risk_factors corpEntity)
                 risk_weights
             risk_level := determine_risk_level
               (computeRiskScore (calculate_risk_factors corpEntity)
                 risk_weights)
             factors := calculate_risk_factors corpEntity
             timestamp := 0
             confidence := calculate_confidence corpEntity }
            : RiskAssessment) := rfl
  rw [hred, hf, hscore, hlevel, hconf]
  rfl

/-- Claim C10: starting from error_rate 0, any finite sequence of
performance-metric updates (success multiplies by 0.95, failure maps e to
0.9 e + 0.1) keeps error_rate in [0, 1). -/
theorem error_rate_invariant :
    ∀ updates : List Bool,
      0 ≤ error_rate_after updates ∧ error_rate_after updates < 1 := by
  intro updates
  unfold error_rate_after
  exact error_rate_fold_bounds updates (newAgent "agent" 0)
    (by norm_num [newAgent]) (by norm_num [newAgent])
